import Mathlib

/-!
Verification of the AudioBooks front end (storage.js / utils.js / player.js /
search.js) against its design specification.

The JavaScript sources are shallowly embedded: DOM handles and the media
element are dropped, each handler becomes a pure function on an explicit
`PlayerState`, `Math.random` draws are passed as explicit parameters, and the
value of `audio.currentTime` observed by `prevTrack` is passed as a rational
argument.  JS strings are modelled through their character lists; the string
builtins the code uses (`toLowerCase`, `includes`, `endsWith`,
`encodeURIComponent`, the `x || default` idiom) are given executable models
below.  `currentIndex` is a `Nat`; the out-of-range sentinels (-1 in JS,
`l.length` for `List.findIdx`) are never observed by the theorems, whose
hypotheses keep indices in range exactly as the data-model invariant
`currentIndex ∈ [0, playlist.length)` demands.
-/

/-! ### JavaScript string primitives -/

/-- Does the second list start with the first one? (element test by `==`). -/
def listStartsWith [BEq α] : List α → List α → Bool
  | [], _ => true
  | _ :: _, [] => false
  | a :: as, b :: bs => a == b && listStartsWith as bs

/-- Does the second list contain the first one as a contiguous segment? -/
def listContainsSeg [BEq α] : List α → List α → Bool
  | pat, [] => pat.isEmpty
  | pat, a :: as => listStartsWith pat (a :: as) || listContainsSeg pat as

/-- JS `String.prototype.toLowerCase` (ASCII fragment, which is all the code needs). -/
def jsToLower (s : String) : String := ⟨s.data.map Char.toLower⟩

/-- JS `String.prototype.includes`. -/
def jsIncludes (s pat : String) : Bool := listContainsSeg pat.data s.data

/-- JS `String.prototype.endsWith`. -/
def jsEndsWith (s pat : String) : Bool := List.isSuffixOf pat.data s.data

/-- JS `x || dflt` on an optional string (`undefined` and `""` are falsy). -/
def jsOrDefault (o : Option String) (dflt : String) : String :=
  match o with
  | some s => if s == "" then dflt else s
  | none => dflt

/-- Characters JS `encodeURIComponent` leaves unescaped. -/
def isUnreservedURI (c : Char) : Bool :=
  c.isAlphanum || c == '-' || c == '_' || c == '.' || c == '!' || c == '~' ||
  c == '*' || c == Char.ofNat 39 || c == '(' || c == ')'

/-- Upper-case hexadecimal digit. -/
def hexDigitChar (n : Nat) : Char :=
  if n < 10 then Char.ofNat (48 + n) else Char.ofNat (55 + n)

/-- Percent-encode one UTF-8 byte. -/
def encodeByte (b : UInt8) : String :=
  ⟨['%', hexDigitChar (b.toNat / 16), hexDigitChar (b.toNat % 16)]⟩

/-- JS `encodeURIComponent`. -/
def encodeURIComponent (s : String) : String :=
  s.data.foldl
    (fun acc c =>
      if isUnreservedURI c then acc.push c
      else acc ++ (String.singleton c).toUTF8.toList.foldl (fun a b => a ++ encodeByte b) "")
    ""

/-! ### Data model -/

/-- One entry of the catalog item's file manifest (`data.files[i]`).
Fields the manifest may omit are `""`/`none`, matching JS falsiness. -/
structure AFile where
  name : String
  format : String
  original : Option String
  title : Option String
deriving DecidableEq

/-- A playable chapter, as built by `Player.initialize`. -/
structure Chapter where
  title : String
  url : String
deriving DecidableEq

/-- One entry of the persisted recently-viewed list. -/
structure RecentEntry where
  identifier : String
  title : String
deriving DecidableEq

/-- The identifier/title pair handed to `StorageManager.updateRecentlyViewed`. -/
structure ShowRef where
  identifier : String
  title : Option String
deriving DecidableEq

/-! ### storage.js: StorageManager.updateRecentlyViewed -/

/-- `StorageManager.updateRecentlyViewed` acting on the parsed stored list
(the `localStorage` round-trip is identity on well-formed data). -/
def updateRecentlyViewed (stored : List RecentEntry) (sh : ShowRef) : List RecentEntry :=
  if sh.identifier == "" then stored
  else
    let filtered := stored.filter (fun s => s.identifier != sh.identifier)
    let pushed := { identifier := sh.identifier,
                    title := jsOrDefault sh.title "Unknown Show" } :: filtered
    if 5 < pushed.length then pushed.dropLast else pushed

/-! ### player.js: the audio-file filter inside Player.initialize -/

/-- `format.includes('mp3') || format.includes('ogg') || format.includes('vorbis')
|| format.includes('mpeg')` on an already-lower-cased string. -/
def isAudioFormatStr (format : String) : Bool :=
  jsIncludes format "mp3" || jsIncludes format "ogg" ||
  jsIncludes format "vorbis" || jsIncludes format "mpeg"

/-- The `nonAudioExtensions` array from `Player.initialize`. -/
def nonAudioExtensions : List String :=
  [".zip", ".txt", ".pdf", ".xml", ".jpg", ".jpeg",
   ".png", ".gif", ".m3u", ".md5", ".sqlite", ".torrent",
   ".html", ".htm", ".json", ".sh", ".asc", ".meta"]

/-- The filter callback of `data.files.filter(f => ...)` in `Player.initialize`. -/
def isAudioFile (f : AFile) : Bool :=
  if f.name == "" || f.format == "" then false
  else
    let format := jsToLower f.format
    let nameLower := jsToLower f.name
    let isAudioFormat := isAudioFormatStr format
    let hasNonAudioExtension := nonAudioExtensions.any (fun ext => jsEndsWith nameLower ext)
    let originalFormat := match f.original with
      | some o => jsToLower o
      | none => ""
    let isOriginalAudio := originalFormat == "" ||
      jsIncludes originalFormat "mp3" || jsIncludes originalFormat "audio"
    isAudioFormat && !hasNonAudioExtension && isOriginalAudio

/-- The audio-file inclusion predicate exactly as the specification words it:
(a) the format string case-insensitively contains an audio token, (b) the
filename does not end with an excluded extension, (c) the original-format
field, when present (and nonempty — JS cannot tell an empty field from an
absent one), itself looks like an audio format.  Used to compare the spec's
three-clause filter against the code's `isAudioFile`. -/
def audioFileSpec (f : AFile) : Bool :=
  isAudioFormatStr (jsToLower f.format) &&
  !(nonAudioExtensions.any (fun ext => jsEndsWith (jsToLower f.name) ext)) &&
  (match f.original with
   | none => true
   | some o => o == "" || jsIncludes (jsToLower o) "mp3" || jsIncludes (jsToLower o) "audio")

/-! ### player.js: Player.initialize -/

/-- `f.name.replace(/\.(mp3|ogg)$/i, '')`. -/
def stripAudioExt (nm : String) : String :=
  if jsEndsWith (jsToLower nm) ".mp3" || jsEndsWith (jsToLower nm) ".ogg" then
    ⟨nm.data.take (nm.data.length - 4)⟩
  else nm

/-- One element of `audioFiles.map(f => ({title, url}))` in `Player.initialize`. -/
def mkChapter (identifier : String) (f : AFile) : Chapter :=
  { title := jsOrDefault f.title (stripAudioExt f.name)
    url := "https://archive.org/download/" ++ identifier ++ "/" ++ encodeURIComponent f.name }

/-- The parsed body of a successful metadata fetch: `data.metadata.title` and
`data.files` (`none` models a missing/non-array `files`). -/
structure BookData where
  title : Option String
  files : Option (List AFile)

/-- Observable outcome of `Player.initialize`: its boolean return value, the
recently-viewed list after the `storage.updateRecentlyViewed` side effect, and
the constructed playlist and starting index. -/
structure InitResult where
  success : Bool
  stored : List RecentEntry
  playlist : List Chapter
  currentIndex : Nat
deriving DecidableEq

/-- `Player.initialize(identifier, startTrack)` after the metadata fetch has
been resolved to `data` (`none` = no/invalid response, which throws before any
side effect).  `startTrack = none` models a NaN argument. -/
def initPlayer (stored : List RecentEntry) (identifier : String)
    (data : Option BookData) (startTrack : Option Int) : InitResult :=
  if identifier == "" then
    { success := false, stored := stored, playlist := [], currentIndex := 0 }
  else
    match data with
    | none => { success := false, stored := stored, playlist := [], currentIndex := 0 }
    | some d =>
      let stored1 := updateRecentlyViewed stored { identifier := identifier, title := d.title }
      match d.files with
      | none => { success := false, stored := stored1, playlist := [], currentIndex := 0 }
      | some fs =>
        let audioFiles := fs.filter isAudioFile
        if audioFiles.isEmpty then
          { success := false, stored := stored1, playlist := [], currentIndex := 0 }
        else
          let playlist := audioFiles.map (mkChapter identifier)
          let ci : Nat := match startTrack with
            | none => 0
            | some k => if 0 ≤ k ∧ k < (playlist.length : Int) then k.toNat else 0
          { success := true, stored := stored1, playlist := playlist, currentIndex := ci }

/-- `Player.initialize` with metadata present and a files array — the shape all
in-range claims quantify over. -/
def initCall (stored : List RecentEntry) (identifier : String) (mtitle : Option String)
    (files : List AFile) (startTrack : Option Int) : InitResult :=
  initPlayer stored identifier (some { title := mtitle, files := some files }) startTrack

/-! ### player.js: Player state and event handlers -/

/-- The `Player` instance fields the handlers read and write.  `playerState`
and `loopMode` are the string literals the source uses. -/
structure PlayerState where
  playlist : List Chapter
  originalPlaylist : List Chapter
  currentIndex : Nat
  isShuffled : Bool
  loopMode : String
  playerState : String
  isLoadingTrack : Bool
  consecutiveErrors : Nat
deriving DecidableEq

/-- The `Player` constructor's field values. -/
def initialPlayerState : PlayerState :=
  { playlist := [], originalPlaylist := [], currentIndex := 0, isShuffled := false,
    loopMode := "none", playerState := "paused", isLoadingTrack := false,
    consecutiveErrors := 0 }

/-- `this.maxConsecutiveErrors`. -/
def maxConsecutiveErrors : Nat := 3

/-- The four `audio.error.code` constants, plus any other code (the switch's
implicit default). -/
inductive MediaErrCode
  | aborted
  | network
  | decode
  | srcNotSupported
  | other
deriving DecidableEq

/-- The message chosen by the `switch (audio.error.code)` in `handleAudioError`. -/
def mediaErrorMessage : MediaErrCode → String
  | .aborted => "Playback aborted"
  | .network => "Network error loading audio"
  | .decode => "Audio file corrupted or unsupported"
  | .srcNotSupported => "Audio format not supported"
  | .other => "Audio playback error"

/-- What `handleAudioError` surfaces: `showPlayerError` (the blocking panel) or
`showToast` (the transient notice). -/
inductive Surface
  | panel (msg : String)
  | toast (msg : String)
deriving DecidableEq

/-- `Player.handleAudioError`.  `err = none` models a missing `audio`/
`audio.error`, whose early return skips the user-facing message but happens
after the counter increment and flag reset. -/
def handleAudioError (s : PlayerState) (err : Option MediaErrCode) :
    PlayerState × Option Surface :=
  let s1 := { s with consecutiveErrors := s.consecutiveErrors + 1, isLoadingTrack := false }
  match err with
  | none => (s1, none)
  | some c =>
    let msg := mediaErrorMessage c
    (s1, some (if maxConsecutiveErrors ≤ s1.consecutiveErrors then
        Surface.panel (msg ++ ". Multiple chapters failed to load. This audiobook may have issues.")
      else
        Surface.toast msg))

/-- The `playing` listener installed in `setupUI`: `updateState('playing')`,
reset the consecutive-error counter, clear the loading flag. -/
def onPlayingEvent (s : PlayerState) : PlayerState :=
  { s with playerState := "playing", consecutiveErrors := 0, isLoadingTrack := false }

/-- The two media events the recoverability contract talks about. -/
inductive PEvent
  | mediaError (c : MediaErrCode)
  | playing

/-- Dispatch one media event to its listener. -/
def stepEvent (s : PlayerState) : PEvent → PlayerState × Option Surface
  | .mediaError c => handleAudioError s (some c)
  | .playing => (onPlayingEvent s, none)

/-- Run a trace of media events, collecting every surfaced notice. -/
def runTrace (s : PlayerState) : List PEvent → PlayerState × List Surface
  | [] => (s, [])
  | e :: rest =>
    let p1 := stepEvent s e
    let p2 := runTrace p1.1 rest
    (p2.1, p1.2.toList ++ p2.2)

/-- Is a surfaced notice the blocking error panel? -/
def isBlockingPanel : Surface → Bool
  | .panel _ => true
  | .toast _ => false

/-- Was the blocking panel surfaced at some point of the trace? -/
def panelDuring (s : PlayerState) (t : List PEvent) : Bool :=
  ((runTrace s t).2).any isBlockingPanel

/-- Did a single handler invocation surface the blocking panel? -/
def surfacedPanel (o : Option Surface) : Bool :=
  match o with
  | some srf => isBlockingPanel srf
  | none => false

/-! ### player.js: transport commands -/

/-- The externally visible effect of a transport command. -/
inductive TEffect
  | dropped
  | seekZero
  | loaded (i : Nat)
  | loadFailed
  | noop
  | restart
  | stopped
deriving DecidableEq

/-- `Math.floor(Math.random() * len)` with the draw supplied as `r`
(`r % len` ranges over exactly the indices the JS expression can produce;
`random() * 0` is `0`). -/
def randIndex (r : Nat) (len : Nat) : Nat :=
  if len = 0 then 0 else r % len

/-- `Player.loadTrack(i)`: re-entrancy guard, chapter/url validity check, then
source assignment (state `loading`, loading flag up, index committed). -/
def loadTrack (s : PlayerState) (i : Nat) : PlayerState × TEffect :=
  if s.isLoadingTrack then (s, TEffect.dropped)
  else
    match s.playlist[i]? with
    | none => (s, TEffect.loadFailed)
    | some tr =>
      if tr.url == "" then (s, TEffect.loadFailed)
      else ({ s with isLoadingTrack := true, currentIndex := i, playerState := "loading" },
            TEffect.loaded i)

/-- `Player.nextTrack`.  The index mutation happens before `loadTrack`, exactly
as in the source, so it sticks even if the load is rejected. -/
def nextTrack (r : Nat) (s : PlayerState) : PlayerState × TEffect :=
  if s.isLoadingTrack then (s, TEffect.dropped)
  else if s.isShuffled then
    let s1 := { s with currentIndex := randIndex r s.playlist.length }
    loadTrack s1 s1.currentIndex
  else if (s.currentIndex : Int) < (s.playlist.length : Int) - 1 then
    let s1 := { s with currentIndex := s.currentIndex + 1 }
    loadTrack s1 s1.currentIndex
  else if s.loopMode == "all" then
    let s1 := { s with currentIndex := 0 }
    loadTrack s1 s1.currentIndex
  else (s, TEffect.noop)

/-- `Player.prevTrack`.  `pos` is the value of `this.audio.currentTime` the
handler reads at its `> 3` test. -/
def prevTrack (r : Nat) (pos : Rat) (s : PlayerState) : PlayerState × TEffect :=
  if s.isLoadingTrack then (s, TEffect.dropped)
  else if 3 < pos then (s, TEffect.seekZero)
  else if s.isShuffled then
    let s1 := { s with currentIndex := randIndex r s.playlist.length }
    loadTrack s1 s1.currentIndex
  else if 0 < s.currentIndex then
    let s1 := { s with currentIndex := s.currentIndex - 1 }
    loadTrack s1 s1.currentIndex
  else if s.loopMode == "all" then
    let s1 := { s with currentIndex := s.playlist.length - 1 }
    loadTrack s1 s1.currentIndex
  else (s, TEffect.noop)

/-- `Player.handleTrackEnd`. -/
def handleTrackEnd (r : Nat) (s : PlayerState) : PlayerState × TEffect :=
  if s.loopMode == "one" then (s, TEffect.restart)
  else if s.loopMode == "all" || s.isShuffled ||
      decide ((s.currentIndex : Int) < (s.playlist.length : Int) - 1) then
    nextTrack r s
  else ({ s with playerState := "paused" }, TEffect.stopped)

/-! ### utils.js: shuffleArray, and player.js: Player.toggleShuffle -/

/-- `[arr[i], arr[j]] = [arr[j], arr[i]]` (identity when an index is out of
range, which the Fisher-Yates loop never produces). -/
def listSwap (l : List α) (i j : Nat) : List α :=
  match l[i]?, l[j]? with
  | some a, some b => (l.set i b).set j a
  | _, _ => l

/-- The `for (let i = length - 1; i > 0; i--)` loop of `shuffleArray`: the
argument is the next index to swap, `r i % (i + 1)` is the in-range draw
`Math.floor(Math.random() * (i + 1))`. -/
def fisherYatesAux (r : Nat → Nat) : Nat → List α → List α
  | 0, l => l
  | i + 1, l => fisherYatesAux r i (listSwap l (i + 1) (r (i + 1) % (i + 2)))

/-- `shuffleArray` from utils.js. -/
def shuffleArray (r : Nat → Nat) (l : List α) : List α :=
  fisherYatesAux r (l.length - 1) l

/-- `Player.toggleShuffle`.  When `playlist[currentIndex]` is `undefined` the
JS callback of `findIndex` throws after `isShuffled` and `playlist` are already
reassigned; the `none` branch reproduces the state left behind in that case. -/
def toggleShuffle (r : Nat → Nat) (s : PlayerState) : PlayerState :=
  let sh := !s.isShuffled
  let newPl := if sh then shuffleArray r s.playlist else s.originalPlaylist
  match s.playlist[s.currentIndex]? with
  | none => { s with isShuffled := sh, playlist := newPl }
  | some cur =>
    { s with isShuffled := sh, playlist := newPl,
             currentIndex := newPl.findIdx (fun t => t.url == cur.url) }

/-! ### search.js: fetchWithRetry and retryLastSearch -/

/-- `MAX_RETRIES` from search.js. -/
def MAX_RETRIES : Nat := 3

/-- `RETRY_DELAY` (milliseconds) from search.js. -/
def RETRY_DELAY : Nat := 1000

/-- The `for (let i = 0; i < retries; i++)` loop of `fetchWithRetry`.  `oracle`
gives each attempt's outcome; the result pairs the returned/thrown value with
the list of `sleep` delays taken before retries.  The fuel equals the number
of remaining loop iterations (`retries - i`), so the `0` case is the loop
falling through, which in JS returns `undefined`. -/
def fetchWithRetryAux (oracle : Nat → Except String String) (retries : Nat) :
    Nat → Nat → Except String String × List Nat
  | _, 0 => (Except.error "loop exhausted", [])
  | i, fuel + 1 =>
    match oracle i with
    | Except.ok v => (Except.ok v, [])
    | Except.error e =>
      if i = retries - 1 then (Except.error e, [])
      else
        let rest := fetchWithRetryAux oracle retries (i + 1) fuel
        (rest.1, RETRY_DELAY * (i + 1) :: rest.2)

/-- `fetchWithRetry(url, retries)` with the network abstracted into `oracle`. -/
def fetchWithRetry (oracle : Nat → Except String String) (retries : Nat) :
    Except String String × List Nat :=
  fetchWithRetryAux oracle retries 0 retries

/-- The `lastSearchParams` object `searchShows` saves before fetching. -/
structure SearchParams where
  query : String
  yearFrom : String
  yearTo : String
  band : String
  page : Nat
deriving DecidableEq

/-- The four search input fields `searchShows` reads. -/
structure SearchDom where
  searchQuery : String
  yearFrom : String
  yearTo : String
  band : String
deriving DecidableEq

/-- `lastSearchParams = { query, yearFrom, yearTo, band, page }` at the top of
`searchShows` (the query is the trimmed input value). -/
def searchShowsSavedParams (dom : SearchDom) (page : Nat) : Option SearchParams :=
  some { query := dom.searchQuery.trim, yearFrom := dom.yearFrom, yearTo := dom.yearTo,
         band := dom.band, page := page }

/-- `window.retryLastSearch`: with saved params it writes them back into the
four inputs and calls `searchShows(page)`; with none saved it does nothing.
The result is the restored input state paired with the replayed page. -/
def retryLastSearch (last : Option SearchParams) : Option (SearchDom × Nat) :=
  match last with
  | none => none
  | some p =>
    some ({ searchQuery := p.query, yearFrom := p.yearFrom, yearTo := p.yearTo,
            band := p.band }, p.page)

/-! ### Demo states and inputs used by concrete instances -/

/-- A three-chapter playlist. -/
def threeChapters : List Chapter :=
  [{ title := "c1", url := "u1" }, { title := "c2", url := "u2" }, { title := "c3", url := "u3" }]

/-- A player on the last chapter of a three-chapter book with `loopMode = all`. -/
def loopAllEndState : PlayerState :=
  { playlist := threeChapters, originalPlaylist := threeChapters, currentIndex := 2,
    isShuffled := false, loopMode := "all", playerState := "playing",
    isLoadingTrack := false, consecutiveErrors := 0 }

/-- A player whose `playing` listener has fired. -/
def playingState : PlayerState :=
  { initialPlayerState with playerState := "playing" }

/-- A player mid-way through a load (`isLoadingTrack = true`), at chapter 1 of 2. -/
def loadingState : PlayerState :=
  { playlist := [{ title := "c1", url := "u1" }, { title := "c2", url := "u2" }],
    originalPlaylist := [{ title := "c1", url := "u1" }, { title := "c2", url := "u2" }],
    currentIndex := 1, isShuffled := false, loopMode := "none", playerState := "loading",
    isLoadingTrack := true, consecutiveErrors := 0 }

/-- The same two-chapter player with no load in flight. -/
def readyState : PlayerState :=
  { loadingState with playerState := "paused", isLoadingTrack := false }

/-- An oracle whose first three attempts fail and whose fourth would succeed. -/
def failThreeOracle : Nat → Except String String :=
  fun i => if i < 3 then Except.error "HTTP 500" else Except.ok "results"

/-- Claim C1: every media error increments `consecutiveErrors`, a `playing`
event resets it to zero, the blocking panel is surfaced at an error exactly
when the incremented count has reached the threshold 3, the trace
error-error-playing-error-error never surfaces the panel from a fresh player,
and three errors with no intervening success always surface it. -/
theorem audiobooks_c1_consecutive_errors :
    (∀ (s : PlayerState) (c : MediaErrCode),
      ((handleAudioError s (some c)).1).consecutiveErrors = s.consecutiveErrors + 1) ∧
    (∀ s : PlayerState, (onPlayingEvent s).consecutiveErrors = 0) ∧
    (∀ (s : PlayerState) (c : MediaErrCode),
      surfacedPanel (handleAudioError s (some c)).2 =
        decide (maxConsecutiveErrors ≤ s.consecutiveErrors + 1)) ∧
    (∀ c1 c2 c3 c4 : MediaErrCode,
      panelDuring initialPlayerState
        [PEvent.mediaError c1, PEvent.mediaError c2, PEvent.playing,
         PEvent.mediaError c3, PEvent.mediaError c4] = false) ∧
    (∀ (s : PlayerState) (c1 c2 c3 : MediaErrCode),
      panelDuring s [PEvent.mediaError c1, PEvent.mediaError c2, PEvent.mediaError c3] = true) := by
  refine ⟨fun s c => rfl, fun s => rfl, ?_, ?_, ?_⟩
  · intro s c
    by_cases h : maxConsecutiveErrors ≤ s.consecutiveErrors + 1
    · simp [handleAudioError, surfacedPanel, isBlockingPanel, h]
    · simp [handleAudioError, surfacedPanel, isBlockingPanel, h]
  · intro c1 c2 c3 c4
    simp [panelDuring, runTrace, stepEvent, handleAudioError, onPlayingEvent,
      initialPlayerState, surfacedPanel, isBlockingPanel, maxConsecutiveErrors]
  · intro s c1 c2 c3
    have h3 : maxConsecutiveErrors ≤ s.consecutiveErrors + 1 + 1 + 1 := by
      simp only [maxConsecutiveErrors]; omega
    simp [panelDuring, runTrace, stepEvent, handleAudioError, surfacedPanel,
      isBlockingPanel, h3]

/-- Claim C6 (amended): a media error event leaves `playerState` unchanged —
the implementation has no `errored` state; the handler only increments the
consecutive-error counter and clears the loading flag. -/
theorem audiobooks_c6_error_keeps_state :
    ∀ (s : PlayerState) (err : Option MediaErrCode),
      ((handleAudioError s err).1).playerState = s.playerState ∧
      ((handleAudioError s err).1).consecutiveErrors = s.consecutiveErrors + 1 ∧
      ((handleAudioError s err).1).isLoadingTrack = false := by
  intro s err
  refine ⟨?_, ?_, ?_⟩ <;> cases err <;> rfl

/-- Claim C6 counterexample: after a media (network) error in the `playing`
state, `playerState` is still `"playing"`, not `"errored"` — refuting the
claimed `* → errored` transition. -/
theorem audiobooks_c6_counterexample :
    ((handleAudioError playingState (some MediaErrCode.network)).1).playerState = "playing" ∧
    ("playing" : String) ≠ "errored" := by
  exact ⟨rfl, by decide⟩

/-- Claim C9 (amended): a failed search fetch is retried up to 2 times (3
attempts in total), the delay before the k-th retry being k × the fixed base
delay, before the error is surfaced; the retry affordance replays exactly the
saved last-used query parameters. -/
theorem audiobooks_c9_search_retry (oracle : Nat → Except String String) :
    (∀ v, oracle 0 = Except.ok v →
      fetchWithRetry oracle MAX_RETRIES = (Except.ok v, [])) ∧
    (∀ e0 v, oracle 0 = Except.error e0 → oracle 1 = Except.ok v →
      fetchWithRetry oracle MAX_RETRIES = (Except.ok v, [RETRY_DELAY * 1])) ∧
    (∀ e0 e1 v, oracle 0 = Except.error e0 → oracle 1 = Except.error e1 →
        oracle 2 = Except.ok v →
      fetchWithRetry oracle MAX_RETRIES = (Except.ok v, [RETRY_DELAY * 1, RETRY_DELAY * 2])) ∧
    (∀ e0 e1 e2, oracle 0 = Except.error e0 → oracle 1 = Except.error e1 →
        oracle 2 = Except.error e2 →
      fetchWithRetry oracle MAX_RETRIES =
        (Except.error e2, [RETRY_DELAY * 1, RETRY_DELAY * 2])) ∧
    (∀ (dom : SearchDom) (page : Nat),
      retryLastSearch (searchShowsSavedParams dom page) =
        some ({ searchQuery := dom.searchQuery.trim, yearFrom := dom.yearFrom,
                yearTo := dom.yearTo, band := dom.band }, page)) := by
  refine ⟨?_, ?_, ?_, ?_, fun dom page => rfl⟩
  · intro v h0
    simp [fetchWithRetry, MAX_RETRIES, fetchWithRetryAux, h0]
  · intro e0 v h0 h1
    simp [fetchWithRetry, MAX_RETRIES, fetchWithRetryAux, h0, h1]
  · intro e0 e1 v h0 h1 h2
    simp [fetchWithRetry, MAX_RETRIES, fetchWithRetryAux, h0, h1, h2]
  · intro e0 e1 e2 h0 h1 h2
    simp [fetchWithRetry, MAX_RETRIES, fetchWithRetryAux, h0, h1, h2]

/-- Claim C9 counterexample: with every attempt failing, the error surfaces
after only two retries (delays 1000 ms and 2000 ms) even though a third retry
would have succeeded — refuting "retried up to 3 times". -/
theorem audiobooks_c9_counterexample :
    (fetchWithRetry failThreeOracle MAX_RETRIES).1 = Except.error "HTTP 500" ∧
    (fetchWithRetry failThreeOracle MAX_RETRIES).2 = [1000, 2000] ∧
    failThreeOracle 3 = Except.ok "results" := by
  exact ⟨rfl, rfl, rfl⟩

/-- Witness for C9 at the concrete always-failing oracle. -/
theorem audiobooks_c9_witness :
    fetchWithRetry failThreeOracle MAX_RETRIES =
      (Except.error "HTTP 500", [RETRY_DELAY * 1, RETRY_DELAY * 2]) := by
  exact (audiobooks_c9_search_retry failThreeOracle).2.2.2.1 "HTTP 500" "HTTP 500" "HTTP 500"
    rfl rfl rfl

/-- Lower-casing preserves (non-)emptiness of a JS string. -/
lemma jsToLower_beq_empty (s : String) : (jsToLower s == "") = (s == "") := by
  rcases s with ⟨data⟩
  cases data with
  | nil => rfl
  | cons c cs => rfl

/-- Claim C3 (amended): a manifest file passes the filter iff its filename is
nonempty AND the spec's three clauses hold ((a) audio-format token in the
format string, (b) no excluded filename extension, (c) original format, when
present, looks like audio); `cover.jpg`/`JPEG` is always excluded,
`chapter01.mp3`/`VBR MP3` is always included, membership in the filtered
manifest is pointwise, and the filter is idempotent. -/
theorem audiobooks_c3_filter :
    (∀ f : AFile, isAudioFile f = (!(f.name == "") && audioFileSpec f)) ∧
    (∀ (orig ttl : Option String),
      isAudioFile { name := "cover.jpg", format := "JPEG", original := orig, title := ttl }
        = false) ∧
    (∀ ttl : Option String,
      isAudioFile { name := "chapter01.mp3", format := "VBR MP3", original := none, title := ttl }
        = true) ∧
    (∀ (m : List AFile) (g : AFile),
      g ∈ m.filter isAudioFile ↔ g ∈ m ∧ isAudioFile g = true) ∧
    (∀ m : List AFile, (m.filter isAudioFile).filter isAudioFile = m.filter isAudioFile) := by
  refine ⟨?_, fun orig ttl => rfl, fun ttl => rfl, fun m g => List.mem_filter, ?_⟩
  · intro f
    rcases f with ⟨n, fmt, orig, ttl⟩
    cases hn : n == "" with
    | true =>
      have hn' : n = "" := eq_of_beq hn
      subst hn'
      simp [isAudioFile, audioFileSpec]
    | false =>
      cases hf : fmt == "" with
      | true =>
        have hf' : fmt = "" := eq_of_beq hf
        subst hf'
        have hA : isAudioFormatStr (jsToLower "") = false := by decide
        simp [isAudioFile, audioFileSpec, hn, hA]
      | false =>
        cases orig with
        | none =>
          simp [isAudioFile, audioFileSpec, hn, hf]
        | some o =>
          simp [isAudioFile, audioFileSpec, hn, hf, jsToLower_beq_empty]
  · intro m
    simp [List.filter_filter, Bool.and_self]

/-- Claim C3 counterexample: a manifest file with an empty name but format
`mp3` satisfies the spec's three clauses yet is rejected by the code's filter,
so the claimed "if and only if" fails as stated. -/
theorem audiobooks_c3_counterexample :
    isAudioFile { name := "", format := "mp3", original := none, title := none } = false ∧
    audioFileSpec { name := "", format := "mp3", original := none, title := none } = true := by
  exact ⟨rfl, rfl⟩

/-- The entry `updateRecentlyViewed` pushes to the front. -/
def pushedEntry (sh : ShowRef) : RecentEntry :=
  RecentEntry.mk sh.identifier (jsOrDefault sh.title "Unknown Show")

/-- Claim C8: recording a pair whose identifier is already stored (once, in a
list of at most 5) keeps the length, puts the single entry for that identifier
at the front; recording a 6th distinct identifier into a full list of 5 yields
the new entry followed by the old list minus its last (oldest) entry. -/
theorem audiobooks_c8_recently_viewed (stored : List RecentEntry) (sh : ShowRef)
    (hid : sh.identifier ≠ "") :
    (stored.length ≤ 5 →
      stored.countP (fun e => e.identifier == sh.identifier) = 1 →
      ((updateRecentlyViewed stored sh).length = stored.length ∧
       (updateRecentlyViewed stored sh).head? = some (pushedEntry sh) ∧
       (updateRecentlyViewed stored sh).countP (fun e => e.identifier == sh.identifier) = 1)) ∧
    (stored.length = 5 → (∀ e ∈ stored, e.identifier ≠ sh.identifier) →
      updateRecentlyViewed stored sh = pushedEntry sh :: stored.dropLast) := by
  have hcond : ¬ ((sh.identifier == "") = true) := by
    simp [beq_eq_false_iff_ne.mpr hid]
  constructor
  · intro hlen hcount
    have hpred : (fun a : RecentEntry => decide ¬((a.identifier == sh.identifier) = true))
        = (fun s : RecentEntry => s.identifier != sh.identifier) := by
      funext a
      by_cases h : a.identifier = sh.identifier
      · simp [h, bne]
      · simp [bne, beq_eq_false_iff_ne.mpr h]
    have h2 : List.countP (fun s : RecentEntry => s.identifier != sh.identifier) stored
        = (stored.filter (fun s => s.identifier != sh.identifier)).length :=
      List.countP_eq_length_filter _ _
    have h1 := List.length_eq_countP_add_countP
      (fun e : RecentEntry => e.identifier == sh.identifier) stored
    rw [hpred, h2, hcount] at h1
    have hnot5 : ¬ (5 <
        (pushedEntry sh :: stored.filter (fun s => s.identifier != sh.identifier)).length) := by
      simp only [List.length_cons]
      omega
    have hzero : List.countP (fun e : RecentEntry => e.identifier == sh.identifier)
        (stored.filter (fun s => s.identifier != sh.identifier)) = 0 := by
      rw [List.countP_eq_zero]
      intro a ha
      have hne := (List.mem_filter.mp ha).2
      simp only [bne_iff_ne] at hne
      simp [hne]
    refine ⟨?_, ?_, ?_⟩
    · simp only [updateRecentlyViewed, if_neg hcond, pushedEntry] at hnot5 ⊢
      rw [if_neg hnot5]
      simp only [List.length_cons]
      omega
    · simp only [updateRecentlyViewed, if_neg hcond, pushedEntry] at hnot5 ⊢
      rw [if_neg hnot5]
      rfl
    · simp only [updateRecentlyViewed, if_neg hcond, pushedEntry] at hnot5 ⊢
      rw [if_neg hnot5, List.countP_cons, hzero]
      simp
  · intro hlen5 hall
    have hfil : stored.filter (fun s => s.identifier != sh.identifier) = stored :=
      List.filter_eq_self.mpr (fun a ha => bne_iff_ne.mpr (hall a ha))
    have h6 : 5 < (pushedEntry sh :: stored).length := by
      simp [List.length_cons, hlen5]
    simp only [updateRecentlyViewed, if_neg hcond, hfil, pushedEntry] at h6 ⊢
    rw [if_pos h6]
    cases stored with
    | nil => simp at hlen5
    | cons x rest => exact List.dropLast_cons₂

/-- Witness for C8: a duplicate insert into a two-entry list keeps length 2;
a 6th distinct identifier pushed into a full five-entry list drops the oldest. -/
theorem audiobooks_c8_witness :
    (updateRecentlyViewed [RecentEntry.mk "a" "A", RecentEntry.mk "b" "B"]
       (ShowRef.mk "b" (some "B2"))).length = 2 ∧
    updateRecentlyViewed
        [RecentEntry.mk "a" "A", RecentEntry.mk "b" "B", RecentEntry.mk "c" "C",
         RecentEntry.mk "d" "D", RecentEntry.mk "e" "E"]
        (ShowRef.mk "f" (some "F")) =
      pushedEntry (ShowRef.mk "f" (some "F")) ::
        [RecentEntry.mk "a" "A", RecentEntry.mk "b" "B", RecentEntry.mk "c" "C",
         RecentEntry.mk "d" "D", RecentEntry.mk "e" "E"].dropLast := by
  constructor
  · exact ((audiobooks_c8_recently_viewed [RecentEntry.mk "a" "A", RecentEntry.mk "b" "B"]
      (ShowRef.mk "b" (some "B2")) (by decide)).1 (by decide) (by decide)).1
  · exact (audiobooks_c8_recently_viewed
      [RecentEntry.mk "a" "A", RecentEntry.mk "b" "B", RecentEntry.mk "c" "C",
       RecentEntry.mk "d" "D", RecentEntry.mk "e" "E"]
      (ShowRef.mk "f" (some "F")) (by decide)).2 (by decide) (by decide)

/-- The recently-viewed list after `updateRecentlyViewed` always has the new
entry at the front (for a nonempty identifier). -/
lemma updateRecentlyViewed_head (stored : List RecentEntry) (sh : ShowRef)
    (h : sh.identifier ≠ "") :
    (updateRecentlyViewed stored sh).head? = some (pushedEntry sh) := by
  have hcond : ¬ ((sh.identifier == "") = true) := by
    simp [beq_eq_false_iff_ne.mpr h]
  simp only [updateRecentlyViewed, if_neg hcond, pushedEntry]
  split
  case isTrue h5 =>
    cases hfe : stored.filter (fun s => s.identifier != sh.identifier) with
    | nil => rw [hfe] at h5; simp at h5
    | cons x rest => rw [List.dropLast_cons₂]; rfl
  case isFalse => rfl

/-- Claim C10: with metadata present but zero audio files after filtering,
`Player.initialize` returns `false`, yet the identifier/title pair has already
been pushed to the front of the recently-viewed list — the failed
initialization is not atomic with respect to the preference store. -/
theorem audiobooks_c10_nonatomic_init (stored : List RecentEntry) (identifier : String)
    (mtitle : Option String) (files : List AFile) (startTrack : Option Int)
    (hid : identifier ≠ "")
    (hempty : files.filter isAudioFile = []) :
    (initCall stored identifier mtitle files startTrack).success = false ∧
    (initCall stored identifier mtitle files startTrack).stored =
      updateRecentlyViewed stored (ShowRef.mk identifier mtitle) ∧
    ((initCall stored identifier mtitle files startTrack).stored).head? =
      some (pushedEntry (ShowRef.mk identifier mtitle)) := by
  have hcond : ¬ ((identifier == "") = true) := by
    simp [beq_eq_false_iff_ne.mpr hid]
  have hkey : initCall stored identifier mtitle files startTrack =
      { success := false,
        stored := updateRecentlyViewed stored (ShowRef.mk identifier mtitle),
        playlist := [], currentIndex := 0 } := by
    simp only [initCall, initPlayer, if_neg hcond, hempty, List.isEmpty_nil, if_pos]
  rw [hkey]
  exact ⟨rfl, rfl, updateRecentlyViewed_head stored (ShowRef.mk identifier mtitle) hid⟩

/-- Witness for C10: a manifest holding only cover art fails initialization
while the book is already first in the recently-viewed list. -/
theorem audiobooks_c10_witness :
    (initCall [] "X" (some "Book") [AFile.mk "cover.jpg" "JPEG" none none] none).success
      = false ∧
    ((initCall [] "X" (some "Book") [AFile.mk "cover.jpg" "JPEG" none none] none).stored).head?
      = some (pushedEntry (ShowRef.mk "X" (some "Book"))) := by
  have h := audiobooks_c10_nonatomic_init [] "X" (some "Book")
    [AFile.mk "cover.jpg" "JPEG" none none] none (by decide) (by decide)
  exact ⟨h.1, h.2.2⟩

/-- The spec's end-to-end manifest: cover art, two mp3 chapters, a checksum file. -/
def demoFiles : List AFile :=
  [AFile.mk "cover.jpg" "JPEG" none none,
   AFile.mk "01.mp3" "VBR MP3" none none,
   AFile.mk "02.mp3" "VBR MP3" none none,
   AFile.mk "checksums.md5" "Metadata" none none]

/-- Claim C4: with at least one audio file surviving the filter,
`Player.initialize` succeeds with a non-empty playlist that maps the filtered
audio files in manifest order, and `currentIndex` is the supplied start index
exactly when it is an integer within `[0, playlist.length)`, else 0. -/
theorem audiobooks_c4_initialization (stored : List RecentEntry) (identifier : String)
    (mtitle : Option String) (files : List AFile) (startTrack : Option Int)
    (hid : identifier ≠ "")
    (hne : files.filter isAudioFile ≠ []) :
    (initCall stored identifier mtitle files startTrack).success = true ∧
    (initCall stored identifier mtitle files startTrack).playlist =
      (files.filter isAudioFile).map (mkChapter identifier) ∧
    (initCall stored identifier mtitle files startTrack).playlist ≠ [] ∧
    (∀ k : Int, startTrack = some k → 0 ≤ k →
      k < (((initCall stored identifier mtitle files startTrack).playlist.length : Int)) →
      ((initCall stored identifier mtitle files startTrack).currentIndex : Int) = k) ∧
    (∀ k : Int, startTrack = some k →
      (k < 0 ∨ (((initCall stored identifier mtitle files startTrack).playlist.length : Int)) ≤ k) →
      (initCall stored identifier mtitle files startTrack).currentIndex = 0) ∧
    (startTrack = none →
      (initCall stored identifier mtitle files startTrack).currentIndex = 0) := by
  have hcond : ¬ ((identifier == "") = true) := by
    simp [beq_eq_false_iff_ne.mpr hid]
  have hie : (files.filter isAudioFile).isEmpty = false := by
    cases hfe : files.filter isAudioFile with
    | nil => exact absurd hfe hne
    | cons a l => rfl
  have hkey : initCall stored identifier mtitle files startTrack =
      { success := true,
        stored := updateRecentlyViewed stored (ShowRef.mk identifier mtitle),
        playlist := (files.filter isAudioFile).map (mkChapter identifier),
        currentIndex := match startTrack with
          | none => 0
          | some k =>
            if 0 ≤ k ∧ k < ((((files.filter isAudioFile).map (mkChapter identifier)).length : Nat) : Int)
            then k.toNat else 0 } := by
    simp only [initCall, initPlayer, if_neg hcond, hie, Bool.false_eq_true, if_false]
  rw [hkey]
  refine ⟨rfl, rfl, ?_, ?_, ?_, ?_⟩
  · simp only [ne_eq, List.map_eq_nil_iff]
    exact hne
  · intro k hk h0 hlt
    subst hk
    simp only [List.length_map] at hlt ⊢
    rw [if_pos ⟨h0, by exact_mod_cast hlt⟩]
    exact Int.toNat_of_nonneg h0
  · intro k hk hout
    subst hk
    simp only [List.length_map] at hout ⊢
    rw [if_neg]
    rintro ⟨h0, hlt⟩
    rcases hout with h | h
    · omega
    · omega
  · intro hk
    subst hk
    rfl

/-- Witness for C4: the spec's end-to-end scenario — manifest
`[cover.jpg, 01.mp3, 02.mp3, checksums.md5]` yields exactly the two mp3
chapters and `currentIndex = 0`. -/
theorem audiobooks_c4_witness :
    (initCall [] "X" none demoFiles none).success = true ∧
    (initCall [] "X" none demoFiles none).playlist =
      [Chapter.mk "01" "https://archive.org/download/X/01.mp3",
       Chapter.mk "02" "https://archive.org/download/X/02.mp3"] ∧
    (initCall [] "X" none demoFiles none).currentIndex = 0 := by
  have h := audiobooks_c4_initialization [] "X" none demoFiles none (by decide) (by decide)
  refine ⟨h.1, ?_, h.2.2.2.2.2 rfl⟩
  rw [h.2.1]
  decide

/-- `loadTrack` commits the index it is given, and every one of its rejection
paths leaves the state unchanged — so when the caller has already stored `i`
in `currentIndex`, the index after the call is `i` in every case. -/
lemma loadTrack_fst_currentIndex (s : PlayerState) (i : Nat) (h : s.currentIndex = i) :
    ((loadTrack s i).1).currentIndex = i := by
  unfold loadTrack
  split
  · exact h
  · split
    · exact h
    · split
      · exact h
      · rfl

/-- Claim C7: unshuffled with no load in flight (and a valid current index),
`nextTrack` increments `currentIndex` when not on the last chapter, wraps to 0
on the last chapter under `loopMode = all`, and keeps it otherwise; the spec's
scenario — 3 chapters, `loopMode = all`, index 2, track ends — advances to 0. -/
theorem audiobooks_c7_next_track :
    (∀ (r : Nat) (s : PlayerState), s.isShuffled = false → s.isLoadingTrack = false →
      s.currentIndex < s.playlist.length →
      ((s.currentIndex + 1 < s.playlist.length →
          ((nextTrack r s).1).currentIndex = s.currentIndex + 1) ∧
       (s.currentIndex + 1 = s.playlist.length → s.loopMode = "all" →
          ((nextTrack r s).1).currentIndex = 0) ∧
       (s.currentIndex + 1 = s.playlist.length → s.loopMode ≠ "all" →
          ((nextTrack r s).1).currentIndex = s.currentIndex))) ∧
    (∀ r : Nat, ((handleTrackEnd r loopAllEndState).1).currentIndex = 0) := by
  constructor
  · intro r s hsh hload hci
    refine ⟨?_, ?_, ?_⟩
    · intro hlt
      have hi : (s.currentIndex : Int) < (s.playlist.length : Int) - 1 := by
        omega
      simp only [nextTrack, hload, Bool.false_eq_true, if_false, hsh, if_pos hi]
      exact loadTrack_fst_currentIndex _ _ rfl
    · intro heq hall
      have hi : ¬ ((s.currentIndex : Int) < (s.playlist.length : Int) - 1) := by
        omega
      have hba : (s.loopMode == "all") = true := by
        rw [hall]; rfl
      simp only [nextTrack, hload, Bool.false_eq_true, if_false, hsh, if_neg hi, hba, if_true]
      exact loadTrack_fst_currentIndex _ _ rfl
    · intro heq hnall
      have hi : ¬ ((s.currentIndex : Int) < (s.playlist.length : Int) - 1) := by
        omega
      have hba : (s.loopMode == "all") = false := beq_eq_false_iff_ne.mpr hnall
      simp only [nextTrack, hload, Bool.false_eq_true, if_false, hsh, if_neg hi, hba]
  · intro r
    rfl

/-- Witness for C7: a two-chapter player at index 0 advances to index 1, and
the spec's loop-all scenario wraps from index 2 to 0 on track end. -/
theorem audiobooks_c7_witness :
    ((nextTrack 0 { readyState with currentIndex := 0 }).1).currentIndex = 1 ∧
    ((handleTrackEnd 0 loopAllEndState).1).currentIndex = 0 := by
  constructor
  · exact (audiobooks_c7_next_track.1 0 { readyState with currentIndex := 0 }
      rfl rfl (by decide)).1 (by decide)
  · exact audiobooks_c7_next_track.2 0

/-- Claim C2 (amended): at playback position > 3 s `prevTrack` never changes
`currentIndex`, and — provided no load is in flight — seeks the current track
to 0; when a load is in flight the whole call is dropped.  At position ≤ 3 s,
unshuffled and with no load in flight, it decrements a positive index, wraps
index 0 to the last chapter under `loopMode = all` (non-empty playlist), and
keeps index 0 otherwise. -/
theorem audiobooks_c2_prev_track (r : Nat) (pos : Rat) (s : PlayerState) :
    (3 < pos → ((prevTrack r pos s).1).currentIndex = s.currentIndex) ∧
    (s.isLoadingTrack = false → 3 < pos → prevTrack r pos s = (s, TEffect.seekZero)) ∧
    (s.isLoadingTrack = true → prevTrack r pos s = (s, TEffect.dropped)) ∧
    (s.isLoadingTrack = false → pos ≤ 3 → s.isShuffled = false →
      ((0 < s.currentIndex →
          ((prevTrack r pos s).1).currentIndex = s.currentIndex - 1) ∧
       (s.currentIndex = 0 → s.loopMode = "all" → 0 < s.playlist.length →
          ((prevTrack r pos s).1).currentIndex = s.playlist.length - 1) ∧
       (s.currentIndex = 0 → s.loopMode ≠ "all" →
          ((prevTrack r pos s).1).currentIndex = s.currentIndex))) := by
  refine ⟨?_, ?_, ?_, ?_⟩
  · intro hpos
    cases hl : s.isLoadingTrack with
    | true => simp only [prevTrack, hl, if_true]
    | false => simp only [prevTrack, hl, Bool.false_eq_true, if_false, if_pos hpos]
  · intro hl hpos
    simp only [prevTrack, hl, Bool.false_eq_true, if_false, if_pos hpos]
  · intro hl
    simp only [prevTrack, hl, if_true]
  · intro hl hpos hsh
    have hnpos : ¬ (3 < pos) := not_lt.mpr hpos
    refine ⟨?_, ?_, ?_⟩
    · intro hgt
      simp only [prevTrack, hl, Bool.false_eq_true, if_false, if_neg hnpos, hsh,
        if_pos hgt]
      exact loadTrack_fst_currentIndex _ _ rfl
    · intro h0 hall hlen
      have hba : (s.loopMode == "all") = true := by rw [hall]; rfl
      simp only [prevTrack, hl, Bool.false_eq_true, if_false, if_neg hnpos, hsh,
        h0, lt_irrefl, if_false, hba, if_true]
      exact loadTrack_fst_currentIndex _ _ rfl
    · intro h0 hnall
      have hba : (s.loopMode == "all") = false := beq_eq_false_iff_ne.mpr hnall
      simp only [prevTrack, hl, Bool.false_eq_true, if_false, if_neg hnpos, hsh,
        h0, lt_irrefl, if_false, hba]

/-- Claim C2 counterexample: with a load in flight and playback position 5 s
(> 3 s), `prevTrack` is dropped entirely — no seek to 0 happens, refuting
"for every session state ... seeks the current track to position 0". -/
theorem audiobooks_c2_counterexample :
    (prevTrack 0 5 loadingState).2 = TEffect.dropped ∧
    TEffect.dropped ≠ TEffect.seekZero := by
  exact ⟨rfl, by decide⟩

/-- Witness for C2: with no load in flight, position 5 s seeks to zero, and
position 1 s decrements the index from 1 to 0. -/
theorem audiobooks_c2_witness :
    prevTrack 0 5 readyState = (readyState, TEffect.seekZero) ∧
    ((prevTrack 0 1 readyState).1).currentIndex = readyState.currentIndex - 1 := by
  constructor
  · exact (audiobooks_c2_prev_track 0 5 readyState).2.1 rfl (by norm_num)
  · exact ((audiobooks_c2_prev_track 0 1 readyState).2.2.2 rfl (by norm_num) rfl).1
      (by decide)

/-- Pulling the `q`-th element to the front while writing `x` in its place is
a permutation-preserving exchange. -/
lemma getCons_set_perm (xs : List α) (q : Nat) (h : q < xs.length) (x : α) :
    List.Perm (xs.get ⟨q, h⟩ :: xs.set q x) (x :: xs) := by
  induction xs generalizing q with
  | nil => simp at h
  | cons y ys ih =>
    cases q with
    | zero => exact List.Perm.swap x y ys
    | succ p =>
      have h' : p < ys.length := by simpa using h
      refine List.Perm.trans (List.Perm.swap y (ys.get ⟨p, h'⟩) (ys.set p x)) ?_
      refine List.Perm.trans (List.Perm.cons y (ih p h')) ?_
      exact List.Perm.swap x y ys

/-- The JS destructuring swap is a permutation of the list. -/
lemma listSwap_perm (l : List α) (i j : Nat) : List.Perm (listSwap l i j) l := by
  unfold listSwap
  split
  case h_1 a b hi hj =>
    have hi' : i < l.length := by
      cases hlt : Nat.decLt i l.length with
      | isTrue h => exact h
      | isFalse h => rw [List.getElem?_eq_none (by omega)] at hi; cases hi
    have hj' : j < l.length := by
      cases hlt : Nat.decLt j l.length with
      | isTrue h => exact h
      | isFalse h => rw [List.getElem?_eq_none (by omega)] at hj; cases hj
    have hia : l[i] = a := by rw [List.getElem?_eq_getElem hi'] at hi; exact Option.some.inj hi
    have hjb : l[j] = b := by rw [List.getElem?_eq_getElem hj'] at hj; exact Option.some.inj hj
    have p1 : List.Perm (a :: l.set i b) (b :: l) := by
      have := getCons_set_perm l i hi' b
      rwa [show l.get ⟨i, hi'⟩ = a from hia] at this
    have hsb : (l.set i b).get ⟨j, by simpa using hj'⟩ = b := by
      by_cases hij : i = j
      · subst hij
        simp
      · rw [List.get_eq_getElem, List.getElem_set_ne hij]
        exact hjb
    have p2 : List.Perm (b :: (l.set i b).set j a) (a :: l.set i b) := by
      have := getCons_set_perm (l.set i b) j (by simpa using hj') a
      rwa [hsb] at this
    exact List.Perm.cons_inv (List.Perm.trans p2 p1)
  case h_2 => exact List.Perm.refl l

/-- Each pass of the Fisher-Yates loop permutes the list. -/
lemma fisherYatesAux_perm (r : Nat → Nat) (n : Nat) (l : List α) :
    List.Perm (fisherYatesAux r n l) l := by
  induction n generalizing l with
  | zero => exact List.Perm.refl l
  | succ m ih =>
    exact List.Perm.trans (ih _) (listSwap_perm l (m + 1) (r (m + 1) % (m + 2)))

/-- `shuffleArray` returns a permutation of its input. -/
lemma shuffleArray_perm (r : Nat → Nat) (l : List α) :
    List.Perm (shuffleArray r l) l :=
  fisherYatesAux_perm r (l.length - 1) l

/-- Relocating by URL identity: `findIndex(t => t.url === cur.url)` on a list
containing `cur` lands in range, on a chapter with `cur`'s URL. -/
lemma findIdx_url_relocate (pl : List Chapter) (c : Chapter) (hmem : c ∈ pl) :
    pl.findIdx (fun t => t.url == c.url) < pl.length ∧
    Option.map Chapter.url (pl[pl.findIdx (fun t => t.url == c.url)]?) = some c.url := by
  have hex : ∃ x ∈ pl, (fun t : Chapter => t.url == c.url) x = true := ⟨c, hmem, by simp⟩
  have hidx := List.findIdx_lt_length_of_exists hex
  refine ⟨hidx, ?_⟩
  rw [List.getElem?_eq_getElem hidx]
  have hp := @List.findIdx_getElem _ (fun t : Chapter => t.url == c.url) pl hidx
  have hu : (pl[pl.findIdx (fun t : Chapter => t.url == c.url)]).url = c.url := eq_of_beq hp
  rw [Option.map_some', hu]

/-- Claim C5: a shuffle toggle (either direction) keeps the multiset of
chapters of the working playlist, toggling shuffle off restores exactly the
original order, and the chapter selected after the toggle has the same URL as
the chapter selected before it (at an in-range new index). -/
theorem audiobooks_c5_shuffle_toggle (r : Nat → Nat) (s : PlayerState)
    (hci : s.currentIndex < s.playlist.length)
    (hperm : List.Perm s.playlist s.originalPlaylist) :
    List.Perm (toggleShuffle r s).playlist s.playlist ∧
    (s.isShuffled = true → (toggleShuffle r s).playlist = s.originalPlaylist) ∧
    (toggleShuffle r s).currentIndex < (toggleShuffle r s).playlist.length ∧
    Option.map Chapter.url ((toggleShuffle r s).playlist[(toggleShuffle r s).currentIndex]?) =
      Option.map Chapter.url (s.playlist[s.currentIndex]?) := by
  have hcur : s.playlist[s.currentIndex]? = some (s.playlist[s.currentIndex]) :=
    List.getElem?_eq_getElem hci
  have hkey : toggleShuffle r s = { s with
      isShuffled := !s.isShuffled,
      playlist := if !s.isShuffled then shuffleArray r s.playlist else s.originalPlaylist,
      currentIndex := (if !s.isShuffled then shuffleArray r s.playlist
          else s.originalPlaylist).findIdx
        (fun t => t.url == (s.playlist[s.currentIndex]).url) } := by
    simp only [toggleShuffle, hcur]
  have hpl : List.Perm (if !s.isShuffled then shuffleArray r s.playlist
      else s.originalPlaylist) s.playlist := by
    cases hsh : s.isShuffled with
    | false => simpa [hsh] using shuffleArray_perm r s.playlist
    | true => simpa [hsh] using hperm.symm
  have hmem : s.playlist[s.currentIndex] ∈
      (if !s.isShuffled then shuffleArray r s.playlist else s.originalPlaylist) :=
    hpl.mem_iff.mpr (List.getElem_mem hci)
  have hrel := findIdx_url_relocate _ _ hmem
  rw [hkey]
  refine ⟨hpl, ?_, hrel.1, ?_⟩
  · intro hsh
    rw [hsh]
    rfl
  · rw [hcur]
    exact hrel.2

/-- Witness for C5 at a concrete two-chapter player: the toggled playlist is a
permutation, the relocated index is in range, and the selected URL is kept. -/
theorem audiobooks_c5_witness :
    List.Perm (toggleShuffle (fun n => n) readyState).playlist readyState.playlist ∧
    (toggleShuffle (fun n => n) readyState).currentIndex <
      (toggleShuffle (fun n => n) readyState).playlist.length ∧
    Option.map Chapter.url
        ((toggleShuffle (fun n => n) readyState).playlist[
          (toggleShuffle (fun n => n) readyState).currentIndex]?) =
      Option.map Chapter.url (readyState.playlist[readyState.currentIndex]?) := by
  have h := audiobooks_c5_shuffle_toggle (fun n => n) readyState (by decide) (by decide)
  exact ⟨h.1, h.2.2.1, h.2.2.2⟩
